import Mathlib

/-!
Verification of `bilibili_api/user.py` (the user-facing client module of the
`blyc/bilibili-api` repository) against its natural-language specification.

The module is embedded shallowly:

* JSON payloads are modelled by the inductive `Json`;
* Python exceptions are modelled by `ApiError` inside `Except`;
* the external HTTP transport (the spec's `Requester`) is a parameter of type
  `Requester := HttpReq → Json`, a mocked pure responder;
* every operation returns the list of observable `Event`s it produced
  (HTTP calls and sleeps, in order) next to its `Except` outcome, so that
  "the Requester is never invoked" and "exactly two calls" are statable;
* the mutable self-info cache of the `User` class is explicit state passing.

Endpoint URLs come from the external `ApiCatalog` (`get_api("user")`), whose
data file is not part of the embedded module; URLs are therefore represented
by their distinct logical catalog keys.
-/

/-- JSON values, the payload universe of the client: objects are ordered
key/value lists mirroring Python dict insertion order. -/
inductive Json where
  | null : Json
  | bool : Bool → Json
  | num : Int → Json
  | str : String → Json
  | arr : List Json → Json
  | obj : List (String × Json) → Json

/-- Python exceptions raised by the embedded module.  `missingCredential c`
stands for the `CredentialNoSessdataException` / `CredentialNoBiliJctException`
family (the spec's `MissingCredentialError(claim)`), `valueError m` for
`ValueError(m)` (the spec's `CollectionNotFoundError` when `m` is the
channel-not-found message), `keyError k` for `KeyError(k)` and `typeError`
for `TypeError`. -/
inductive ApiError where
  | missingCredential : String → ApiError
  | valueError : String → ApiError
  | keyError : String → ApiError
  | typeError : ApiError
deriving Repr, DecidableEq

/-- Modelled from the spec: the `Credential` class (`utils/Credential.py`) is
not under `src/`; per spec §3 and §4.1 an AuthContext is a bag of named
optional credential fields (session token `sessdata`, cross-site write token
`bili_jct`, device/user identifiers), each independently present or absent,
with the anonymous context (all fields absent) as default. -/
structure Credential where
  sessdata : Option String := none
  bili_jct : Option String := none
  buvid3 : Option String := none
  dedeuserid : Option String := none
deriving Repr, DecidableEq

/-- Modelled from the spec: `Credential.raise_for_no_sessdata` is not under
`src/`; per spec §4.1 (`requireField(name)` fails with
`MissingCredentialError(name)` if absent) it raises exactly when the session
claim `sessdata` is absent, naming that claim. -/
def Credential.raise_for_no_sessdata (c : Credential) : Except ApiError Unit :=
  if c.sessdata.isSome then .ok () else .error (.missingCredential "sessdata")

/-- Modelled from the spec: `Credential.raise_for_no_bili_jct` is not under
`src/`; per spec §4.1 it raises exactly when the write-token claim `bili_jct`
is absent, naming that claim. -/
def Credential.raise_for_no_bili_jct (c : Credential) : Except ApiError Unit :=
  if c.bili_jct.isSome then .ok () else .error (.missingCredential "bili_jct")

/-- Modelled from the spec: `Credential.raise_for_no_dedeuserid` (used by
`get_self_coins`) is not under `src/`; per spec §4.1 it raises exactly when
the user-identifier claim is absent. -/
def Credential.raise_for_no_dedeuserid (c : Credential) : Except ApiError Unit :=
  if c.dedeuserid.isSome then .ok () else .error (.missingCredential "dedeuserid")

/-- One HTTP request as handed to the transport: the arguments of
`network_httpx.request(method, url, params=…, data=…, credential=…)`.
`credential = none` models a call where no credential keyword is passed. -/
structure HttpReq where
  method : String
  url : String
  params : List (String × Json) := []
  data : List (String × Json) := []
  credential : Option Credential := none

/-- Observable events of a run: HTTP calls to the Requester and fixed pauses
(`time.sleep`, recorded in milliseconds). -/
inductive Event where
  | call : HttpReq → Event
  | sleep : Nat → Event

/-- The external transport (spec §6 `Requester.send`), mocked as a pure
responder mapping each request to a parsed payload. -/
def Requester : Type := HttpReq → Json

/-- Whether an event is an HTTP call. -/
def Event.isCall : Event → Bool
  | .call _ => true
  | .sleep _ => false

/-- Number of HTTP calls in a trace. -/
def countCalls (evs : List Event) : Nat := evs.countP Event.isCall

/-- Number of HTTP calls to a given URL in a trace. -/
def countUrlCalls (url : String) (evs : List Event) : Nat :=
  evs.countP fun e =>
    match e with
    | .call r => r.url == url
    | .sleep _ => false

/-- Python dict assignment `d[k] = v` on an association list: replaces the
value at an existing key in place, appends at the end otherwise. -/
def setPairs (k : String) (v : Json) : List (String × Json) → List (String × Json)
  | [] => [(k, v)]
  | (k', v') :: rest => if k' = k then (k, v) :: rest else (k', v') :: setPairs k v rest

/-- Key lookup in an object; `none` when the value is not an object or the
key is absent (used to model membership tests, not subscripting). -/
def Json.lookup : Json → String → Option Json
  | .obj kvs, k => kvs.lookup k
  | _, _ => none

/-- Python subscripting `d[k]` with a string key: `KeyError` on a dict
missing the key, `TypeError` on non-dict values. -/
def Json.getItem : Json → String → Except ApiError Json
  | .obj kvs, k =>
      match kvs.lookup k with
      | some v => .ok v
      | none => .error (.keyError k)
  | _, _ => .error .typeError

/-- Character-list prefix test, auxiliary to the substring test below. -/
def chPrefix : List Char → List Char → Bool
  | [], _ => true
  | _ :: _, [] => false
  | a :: as, b :: bs => a == b && chPrefix as bs

/-- Character-list substring test, auxiliary to Python `needle in hay` on
strings. -/
def chSub (needle : List Char) : List Char → Bool
  | [] => needle.isEmpty
  | b :: bs => chPrefix needle (b :: bs) || chSub needle bs

/-- Python membership test `k in d`: key test on dicts, element test on
lists, substring test on strings, `TypeError` otherwise. -/
def Json.hasMember (d : Json) (k : String) : Except ApiError Bool :=
  match d with
  | .obj kvs => .ok (kvs.lookup k).isSome
  | .arr xs => .ok (xs.any fun x => match x with | .str s => s == k | _ => false)
  | .str s => .ok (chSub k.toList s.toList)
  | _ => .error .typeError

/-- Python numeric equality `j == 0` (`True` for the integer `0` and for
`False`, which Python treats as the integer `0`). -/
def Json.pyEqZero : Json → Bool
  | .num n => n == 0
  | .bool b => b == false
  | _ => false

/-- Python equality `j == n` against an integer `n` (booleans compare as
their integer values; other JSON shapes are unequal to an integer). -/
def Json.pyEqInt (j : Json) (n : Int) : Bool :=
  match j with
  | .num m => m == n
  | .bool b => (if b then (1 : Int) else 0) == n
  | _ => false

/- Endpoint URLs: logical keys of the external ApiCatalog (`API = get_api("user")`). -/

/-- Catalog key of `API["info"]["my_info"]["url"]`. -/
def myInfoUrl : String := "user.info.my_info"

/-- Catalog key of `API["info"]["upstat"]["url"]`. -/
def upstatUrl : String := "user.info.upstat"

/-- Catalog key of `API["info"]["video"]["url"]`. -/
def videoUrl : String := "user.info.video"

/-- Catalog key of `API["info"]["dynamic"]["url"]`. -/
def dynamicUrl : String := "user.info.dynamic"

/-- Catalog key of `API["info"]["followings"]["url"]`. -/
def followingsUrl : String := "user.info.followings"

/-- Catalog key of `API["info"]["followers"]["url"]`. -/
def followersUrl : String := "user.info.followers"

/-- Catalog key of `API["info"]["channel_video_series"]["url"]`. -/
def channelVideoSeriesUrl : String := "user.info.channel_video_series"

/-- Catalog key of `API["info"]["channel_video_season"]["url"]`. -/
def channelVideoSeasonUrl : String := "user.info.channel_video_season"

/-- Catalog key of `API["info"]["channel_list"]["url"]`. -/
def channelListUrl : String := "user.info.channel_list"

/-- Catalog key of `API["info"]["pugv"]["url"]`. -/
def pugvUrl : String := "user.info.pugv"

/-- Catalog key of `API["operate"]["modify"]["url"]`. -/
def modifyUrl : String := "user.operate.modify"

/-- Catalog key of `API["operate"]["send_msg"]["url"]`. -/
def sendMsgUrl : String := "user.operate.send_msg"

/-- Catalog key of `API["operate"]["create_subscribe_group"]["url"]`. -/
def createSubscribeGroupUrl : String := "user.operate.create_subscribe_group"

/-- Catalog key of `API["operate"]["del_subscribe_group"]["url"]`. -/
def delSubscribeGroupUrl : String := "user.operate.del_subscribe_group"

/-- Catalog key of `API["operate"]["rename_subscribe_group"]["url"]`. -/
def renameSubscribeGroupUrl : String := "user.operate.rename_subscribe_group"

/-- Catalog key of `API["operate"]["set_user_subscribe_group"]["url"]`. -/
def setUserSubscribeGroupUrl : String := "user.operate.set_user_subscribe_group"

/-- `VideoOrder` enumeration of `user.py` (sort orders for video listings). -/
inductive VideoOrder where
  | PUBDATE
  | FAVORATE
  | VIEW
deriving Repr, DecidableEq

/-- Underlying serialization value of each `VideoOrder` member. -/
def VideoOrder.value : VideoOrder → String
  | .PUBDATE => "pubdate"
  | .FAVORATE => "stow"
  | .VIEW => "click"

/-- `ChannelOrder` enumeration (collection-video sort orders). -/
inductive ChannelOrder where
  | DEFAULT
  | CHANGE
deriving Repr, DecidableEq

/-- Underlying serialization value of each `ChannelOrder` member. -/
def ChannelOrder.value : ChannelOrder → String
  | .DEFAULT => "false"
  | .CHANGE => "true"

/-- `RelationType` enumeration (relation-change actions). -/
inductive RelationType where
  | SUBSCRIBE
  | UNSUBSCRIBE
  | SUBSCRIBE_SECRETLY
  | BLOCK
  | UNBLOCK
  | REMOVE_FANS
deriving Repr, DecidableEq

/-- Underlying serialization value of each `RelationType` member. -/
def RelationType.value : RelationType → Int
  | .SUBSCRIBE => 1
  | .UNSUBSCRIBE => 2
  | .SUBSCRIBE_SECRETLY => 3
  | .BLOCK => 5
  | .UNBLOCK => 6
  | .REMOVE_FANS => 7

/-- `ChannelSeriesType` enumeration (collection-kind discriminator:
`SERIES` is the legacy list kind, `SEASON` the new one). -/
inductive ChannelSeriesType where
  | SERIES
  | SEASON
deriving Repr, DecidableEq

/-- Underlying value of each `ChannelSeriesType` member. -/
def ChannelSeriesType.value : ChannelSeriesType → Int
  | .SERIES => 0
  | .SEASON => 1

/-- `utils.utils.join(seperator, array)`: the helper file is not under
`src/`; it joins the decimal renderings of the integers with the separator,
as used to serialize uid/group-id lists.  No claim depends on its output. -/
def join (sep : String) (xs : List Int) : String :=
  String.intercalate sep (xs.map toString)

/-- `json.dumps(\x7b"content": text\x7d)` as called by `send_msg`; the JSON
serializer is the Python standard library (string escaping elided — no claim
inspects this field). -/
def dumpsContent (text : String) : String :=
  "\x7b\"content\": \"" ++ text ++ "\"\x7d"

/-- The `User` class: uid, credential, and the private `__self_info`
single-value cache (`None` until first populated). -/
structure User where
  uid : Int
  credential : Credential
  self_info : Option Json := none

/-- `User.__init__(uid, credential=None)`: a missing credential defaults to
the anonymous `Credential()`; the self-info cache starts empty. -/
def User.make (uid : Int) (credential : Option Credential) : User :=
  { uid := uid, credential := credential.getD {}, self_info := none }

/-- Module-level `get_self_info(credential)`: requires the session claim,
then issues one GET to the my-info endpoint. -/
def get_self_info (req : Requester) (credential : Credential) :
    List Event × Except ApiError Json :=
  match credential.raise_for_no_sessdata with
  | .error e => ([], .error e)
  | .ok _ =>
      let r : HttpReq := { method := "GET", url := myInfoUrl, credential := some credential }
      ([.call r], .ok (req r))

/-- `User.__get_self_info`: returns the cached identity when present,
otherwise fetches via `get_self_info` and populates the cache. -/
def User.getSelfInfo (req : Requester) (u : User) :
    List Event × User × Except ApiError Json :=
  match u.self_info with
  | some info => ([], u, .ok info)
  | none =>
      match get_self_info req u.credential with
      | (evs, .error e) => (evs, u, .error e)
      | (evs, .ok info) => (evs, { u with self_info := some info }, .ok info)

/-- `User.get_up_stat`: requires the write-token claim (`bili_jct`) only,
then issues one GET to the upload-statistics endpoint. -/
def User.get_up_stat (req : Requester) (u : User) :
    List Event × Except ApiError Json :=
  match u.credential.raise_for_no_bili_jct with
  | .error e => ([], .error e)
  | .ok _ =>
      let r : HttpReq := { method := "GET", url := upstatUrl,
                           params := [("mid", .num u.uid)],
                           credential := some u.credential }
      ([.call r], .ok (req r))

/-- `User.get_videos(tid, pn, ps, keyword, order)`: one GET with the order
enum serialized by its underlying value. -/
def User.get_videos (req : Requester) (u : User) (tid pn ps : Int)
    (keyword : String) (order : VideoOrder) :
    List Event × Except ApiError Json :=
  let r : HttpReq := { method := "GET", url := videoUrl,
                       params := [("mid", .num u.uid), ("ps", .num ps),
                                  ("tid", .num tid), ("pn", .num pn),
                                  ("keyword", .str keyword),
                                  ("order", .str order.value)],
                       credential := some u.credential }
  ([.call r], .ok (req r))

/-- One iteration of the card loop in `User.get_dynamics`: subscripts
`card["card"]` and `card["extend_json"]`, decodes each with `json.loads`
(the decoder `dec` is the external JSON parser) and assigns the decoded
value back in place. -/
def transformCard (dec : String → Json) (card : Json) : Except ApiError Json :=
  match card with
  | .obj kvs =>
      match kvs.lookup "card" with
      | none => .error (.keyError "card")
      | some (.str s) =>
          let kvs1 := setPairs "card" (dec s) kvs
          match kvs1.lookup "extend_json" with
          | none => .error (.keyError "extend_json")
          | some (.str t) => .ok (.obj (setPairs "extend_json" (dec t) kvs1))
          | some _ => .error .typeError
      | some _ => .error .typeError
  | _ => .error .typeError

/-- The embedded-JSON unwrap of `User.get_dynamics`: when `"cards" in data`,
decode every card's `card` and `extend_json` fields in place; otherwise
return the payload unchanged. -/
def unwrapCards (dec : String → Json) (data : Json) : Except ApiError Json :=
  match data.hasMember "cards" with
  | .error e => .error e
  | .ok false => .ok data
  | .ok true =>
      match data.getItem "cards" with
      | .error e => .error e
      | .ok (.arr cards) =>
          match cards.mapM (transformCard dec) with
          | .error e => .error e
          | .ok cards1 =>
              match data with
              | .obj kvs => .ok (.obj (setPairs "cards" (.arr cards1) kvs))
              | d => .ok d
      | .ok _ => .error .typeError

/-- `User.get_dynamics(offset, need_top)`: one GET with `need_top`
serialized as the integer `1`/`0`, followed by the embedded-JSON unwrap of
the response. -/
def User.get_dynamics (dec : String → Json) (req : Requester) (u : User)
    (offset : Int) (need_top : Bool) :
    List Event × Except ApiError Json :=
  let r : HttpReq := { method := "GET", url := dynamicUrl,
                       params := [("host_uid", .num u.uid),
                                  ("offset_dynamic_id", .num offset),
                                  ("need_top", .num (if need_top then 1 else 0))],
                       credential := some u.credential }
  ([.call r], unwrapCards dec (req r))

/-- `User.get_followings(pn, desc)`: one GET with the ordering boolean
serialized as the literal string `"desc"`/`"asc"`. -/
def User.get_followings (req : Requester) (u : User) (pn : Int) (desc : Bool) :
    List Event × Except ApiError Json :=
  let r : HttpReq := { method := "GET", url := followingsUrl,
                       params := [("vmid", .num u.uid), ("ps", .num 20),
                                  ("pn", .num pn),
                                  ("order", .str (if desc then "desc" else "asc"))],
                       credential := some u.credential }
  ([.call r], .ok (req r))

/-- `User.get_followers(pn, desc)`: one GET with the ordering boolean
serialized as the literal string `"desc"`/`"asc"`. -/
def User.get_followers (req : Requester) (u : User) (pn : Int) (desc : Bool) :
    List Event × Except ApiError Json :=
  let r : HttpReq := { method := "GET", url := followersUrl,
                       params := [("vmid", .num u.uid), ("ps", .num 20),
                                  ("pn", .num pn),
                                  ("order", .str (if desc then "desc" else "asc"))],
                       credential := some u.credential }
  ([.call r], .ok (req r))

/-- `User.modify_relation(relation)`: requires the session claim then the
write-token claim, then issues one POST with the relation enum serialized by
its underlying value. -/
def User.modify_relation (req : Requester) (u : User) (relation : RelationType) :
    List Event × Except ApiError Json :=
  match u.credential.raise_for_no_sessdata with
  | .error e => ([], .error e)
  | .ok _ =>
      match u.credential.raise_for_no_bili_jct with
      | .error e => ([], .error e)
      | .ok _ =>
          let r : HttpReq := { method := "POST", url := modifyUrl,
                               data := [("fid", .num u.uid),
                                        ("act", .num relation.value),
                                        ("re_src", .num 11)],
                               credential := some u.credential }
          ([.call r], .ok (req r))

/-- `User.send_msg(text)`: requires the session and write-token claims,
resolves the sender identity through the cached `__get_self_info`, then
issues one POST carrying the message form data (`now` is `int(time.time())`).
Returns the trace, the updated instance (cache) and the outcome. -/
def User.send_msg (req : Requester) (u : User) (text : String) (now : Int) :
    List Event × User × Except ApiError Json :=
  match u.credential.raise_for_no_sessdata with
  | .error e => ([], u, .error e)
  | .ok _ =>
      match u.credential.raise_for_no_bili_jct with
      | .error e => ([], u, .error e)
      | .ok _ =>
          match u.getSelfInfo req with
          | (evs, u1, .error e) => (evs, u1, .error e)
          | (evs, u1, .ok self_info) =>
              match self_info.getItem "mid" with
              | .error e => (evs, u1, .error e)
              | .ok sender_uid =>
                  let d : List (String × Json) :=
                    [("msg[sender_uid]", sender_uid),
                     ("msg[receiver_id]", .num u.uid),
                     ("msg[receiver_type]", .num 1),
                     ("msg[msg_type]", .num 1),
                     ("msg[msg_status]", .num 0),
                     ("msg[content]", .str (dumpsContent text)),
                     ("msg[dev_id]", .str "B9A37BF3-AA9D-4076-A4D3-366AC8C4C5DB"),
                     ("msg[new_face_version]", .str "0"),
                     ("msg[timestamp]", .num now),
                     ("from_filework", .num 0),
                     ("build", .num 0),
                     ("mobi_app", .str "web")]
                  let r : HttpReq := { method := "POST", url := sendMsgUrl,
                                       data := d, credential := some u.credential }
                  (evs ++ [.call r], u1, .ok (req r))

/-- `User.get_channel_videos_series(sid, pn, ps)`: one GET to the
legacy-series listing endpoint; no sort parameter exists here. -/
def User.get_channel_videos_series (req : Requester) (u : User)
    (sid pn ps : Int) : List Event × Except ApiError Json :=
  let r : HttpReq := { method := "GET", url := channelVideoSeriesUrl,
                       params := [("mid", .num u.uid), ("series_id", .num sid),
                                  ("pn", .num pn), ("ps", .num ps)],
                       credential := some u.credential }
  ([.call r], .ok (req r))

/-- `User.get_channel_videos_season(sid, sort, pn, ps)`: one GET to the
season listing endpoint carrying the sort order by its underlying value. -/
def User.get_channel_videos_season (req : Requester) (u : User)
    (sid : Int) (sort : ChannelOrder) (pn ps : Int) :
    List Event × Except ApiError Json :=
  let r : HttpReq := { method := "GET", url := channelVideoSeasonUrl,
                       params := [("mid", .num u.uid), ("season_id", .num sid),
                                  ("sort_reverse", .str sort.value),
                                  ("page_num", .num pn), ("page_size", .num ps)],
                       credential := some u.credential }
  ([.call r], .ok (req r))

/-- The probe request of `User.get_channel_list`: page 1, page size 1. -/
def channelListProbe (u : User) : HttpReq :=
  { method := "GET", url := channelListUrl,
    params := [("mid", .num u.uid), ("page_num", .num 1), ("page_size", .num 1)],
    credential := some u.credential }

/-- Extraction `res["items_lists"]["page"]["total"]` from the probe
response. -/
def probeTotal (res : Json) : Except ApiError Json :=
  match res.getItem "items_lists" with
  | .error e => .error e
  | .ok il =>
      match il.getItem "page" with
      | .error e => .error e
      | .ok page => page.getItem "total"

/-- `User.get_channel_list`: probe GET with page size 1, read the total item
count from the response envelope, `time.sleep(0.5)` (recorded as a 500 ms
pause), replace a zero total by 1, mutate `param["page_size"]` and issue the
second GET. -/
def User.get_channel_list (req : Requester) (u : User) :
    List Event × Except ApiError Json :=
  let r1 := channelListProbe u
  let res := req r1
  match probeTotal res with
  | .error e => ([.call r1], .error e)
  | .ok items =>
      let items1 := if items.pyEqZero then Json.num 1 else items
      let r2 : HttpReq := { method := "GET", url := channelListUrl,
                            params := setPairs "page_size" items1 r1.params,
                            credential := some u.credential }
      ([.call r1, .sleep 500, .call r2], .ok (req r2))

/-- `User.get_cheese`: one GET to the course-listing endpoint; `request` is
called without a credential keyword. -/
def User.get_cheese (req : Requester) (u : User) :
    List Event × Except ApiError Json :=
  let r : HttpReq := { method := "GET", url := pugvUrl,
                       params := [("mid", .num u.uid)], credential := none }
  ([.call r], .ok (req r))

/-- Module-level `create_subscribe_group(name, credential)`: session claim
then write-token claim, then one POST. -/
def create_subscribe_group (req : Requester) (name : String)
    (credential : Credential) : List Event × Except ApiError Json :=
  match credential.raise_for_no_sessdata with
  | .error e => ([], .error e)
  | .ok _ =>
      match credential.raise_for_no_bili_jct with
      | .error e => ([], .error e)
      | .ok _ =>
          let r : HttpReq := { method := "POST", url := createSubscribeGroupUrl,
                               data := [("tag", .str name)],
                               credential := some credential }
          ([.call r], .ok (req r))

/-- Module-level `delete_subscribe_group(group_id, credential)`: session
claim then write-token claim, then one POST. -/
def delete_subscribe_group (req : Requester) (group_id : Int)
    (credential : Credential) : List Event × Except ApiError Json :=
  match credential.raise_for_no_sessdata with
  | .error e => ([], .error e)
  | .ok _ =>
      match credential.raise_for_no_bili_jct with
      | .error e => ([], .error e)
      | .ok _ =>
          let r : HttpReq := { method := "POST", url := delSubscribeGroupUrl,
                               data := [("tagid", .num group_id)],
                               credential := some credential }
          ([.call r], .ok (req r))

/-- Module-level `rename_subscribe_group(group_id, new_name, credential)`:
session claim then write-token claim, then one POST. -/
def rename_subscribe_group (req : Requester) (group_id : Int)
    (new_name : String) (credential : Credential) :
    List Event × Except ApiError Json :=
  match credential.raise_for_no_sessdata with
  | .error e => ([], .error e)
  | .ok _ =>
      match credential.raise_for_no_bili_jct with
      | .error e => ([], .error e)
      | .ok _ =>
          let r : HttpReq := { method := "POST", url := renameSubscribeGroupUrl,
                               data := [("tagid", .num group_id),
                                        ("name", .str new_name)],
                               credential := some credential }
          ([.call r], .ok (req r))

/-- Module-level `set_subscribe_group(uids, group_ids, credential)`: session
claim then write-token claim, then one POST with joined id lists. -/
def set_subscribe_group (req : Requester) (uids group_ids : List Int)
    (credential : Credential) : List Event × Except ApiError Json :=
  match credential.raise_for_no_sessdata with
  | .error e => ([], .error e)
  | .ok _ =>
      match credential.raise_for_no_bili_jct with
      | .error e => ([], .error e)
      | .ok _ =>
          let r : HttpReq := { method := "POST", url := setUserSubscribeGroupUrl,
                               data := [("fids", .str (join "," uids)),
                                        ("tagids", .str (join "," group_ids))],
                               credential := some credential }
          ([.call r], .ok (req r))

/-- The `ChannelSeries` class after a successful `__init__`: owner uid, the
`is_new` discriminator (`type_.value`), the collection id, the owner `User`
back-reference, the construction credential and the stored metadata. -/
structure ChannelSeries where
  uid : Int
  is_new : Int
  id_ : Int
  owner : User
  credential : Option Credential
  meta : Option Json

/-- The scan loop of `ChannelSeries.__init__`: walk the channel entries,
subscript `channel["meta"]["season_id"/"series_id"]`, and keep overwriting
`self.meta` on every id match (the loop does not break early). -/
def scanMeta (is_new : Int) (id_ : Int) (acc : Option Json) :
    List Json → Except ApiError (Option Json)
  | [] => .ok acc
  | ch :: rest =>
      match ch.getItem "meta" with
      | .error e => .error e
      | .ok m =>
          match m.getItem (if is_new ≠ 0 then "season_id" else "series_id") with
          | .error e => .error e
          | .ok tid =>
              if tid.pyEqInt id_ then scanMeta is_new id_ (some m) rest
              else scanMeta is_new id_ acc rest

/-- `ChannelSeries.__init__(uid, type_, id_, credential, meta)`: with an
explicit `meta` argument the instance resolves immediately with no network
activity; with `meta=None` it runs the owner's full `get_channel_list`
two-step fetch, scans the matching sub-list for the collection id, and
raises `ValueError("未找到频道信息。")` when no entry matches. -/
def ChannelSeries.init (req : Requester) (uid : Int) (type_ : ChannelSeriesType)
    (id_ : Int) (credential : Option Credential) (meta : Option Json) :
    List Event × Except ApiError ChannelSeries :=
  let owner := User.make uid credential
  let look_type := if type_.value ≠ 0 then "seasons" else "series"
  match meta with
  | some m =>
      ([], .ok { uid := uid, is_new := type_.value, id_ := id_, owner := owner,
                 credential := credential, meta := some m })
  | none =>
      match owner.get_channel_list req with
      | (evs, .error e) => (evs, .error e)
      | (evs, .ok channel_list) =>
          match channel_list.getItem "items_lists" with
          | .error e => (evs, .error e)
          | .ok il =>
              match il.getItem (look_type ++ "_list") with
              | .error e => (evs, .error e)
              | .ok (.arr channels) =>
                  match scanMeta type_.value id_ none channels with
                  | .error e => (evs, .error e)
                  | .ok none => (evs, .error (.valueError "未找到频道信息。"))
                  | .ok (some m) =>
                      (evs, .ok { uid := uid, is_new := type_.value, id_ := id_,
                                  owner := owner, credential := credential,
                                  meta := some m })
              | .ok _ => (evs, .error .typeError)

/-- `ChannelSeries.get_videos(sort, pn, ps)`: dispatch on the `is_new`
discriminator; the season endpoint receives the sort order, the legacy
series endpoint does not take it at all. -/
def ChannelSeries.get_videos (req : Requester) (cs : ChannelSeries)
    (sort : ChannelOrder) (pn ps : Int) : List Event × Except ApiError Json :=
  if cs.is_new ≠ 0 then
    cs.owner.get_channel_videos_season req cs.id_ sort pn ps
  else
    cs.owner.get_channel_videos_series req cs.id_ pn ps

/-- A trivial mocked Requester used to instantiate witnesses. -/
def nullResponder : Requester := fun _ => Json.null

/-- Lookup after a Python-style assignment at a different key is unchanged. -/
theorem lookup_setPairs_ne (k k' : String) (v : Json)
    (kvs : List (String × Json)) (h : k' ≠ k) :
    (setPairs k v kvs).lookup k' = kvs.lookup k' := by
  induction kvs with
  | nil => simp [setPairs, List.lookup, beq_false_of_ne h]
  | cons p rest ih =>
      obtain ⟨k0, v0⟩ := p
      by_cases hk : k0 = k
      · subst hk
        simp [setPairs, List.lookup, beq_false_of_ne h]
      · simp only [setPairs, if_neg hk, List.lookup]
        cases hbeq : k' == k0 <;> simp [hbeq, ih]

/-- Lookup after a Python-style assignment at the same key yields the new
value. -/
theorem lookup_setPairs_eq (k : String) (v : Json) (kvs : List (String × Json)) :
    (setPairs k v kvs).lookup k = some v := by
  induction kvs with
  | nil => simp [setPairs, List.lookup]
  | cons p rest ih =>
      obtain ⟨k0, v0⟩ := p
      by_cases hk : k0 = k
      · subst hk
        simp [setPairs, List.lookup]
      · have hbeq : (k == k0) = false := beq_false_of_ne fun hh => hk hh.symm
        simp [setPairs, hk, List.lookup, hbeq, ih]

/-- C10: the course-listing operation `get_cheese` does not pass the
instance's AuthContext to the transport: two UserProfile instances with the
same uid and different credentials issue byte-identical requests (method,
URL, params, and no credential attached), so the traces and outcomes
coincide. -/
theorem claim_C10 (req : Requester) (uid : Int) (c1 c2 : Credential) :
    User.get_cheese req (User.make uid (some c1)) =
      User.get_cheese req (User.make uid (some c2)) ∧
    User.get_cheese req (User.make uid (some c1)) =
      ([Event.call { method := "GET", url := pugvUrl,
                     params := [("mid", Json.num uid)], credential := none }],
       .ok (req { method := "GET", url := pugvUrl,
                  params := [("mid", Json.num uid)], credential := none })) := by
  exact ⟨rfl, rfl⟩

/-- C6: `get_up_stat` requires exactly the write-token claim `bili_jct`:
without it the call fails with `MissingCredentialError` naming that claim and
the Requester is never invoked; with it present the request is issued — for
every credential, hence in particular when the session claim is absent. -/
theorem claim_C6 (req : Requester) (uid : Int) (c : Credential) :
    (c.bili_jct = none →
      User.get_up_stat req (User.make uid (some c)) =
        ([], .error (.missingCredential "bili_jct"))) ∧
    (c.bili_jct.isSome = true →
      User.get_up_stat req (User.make uid (some c)) =
        ([Event.call { method := "GET", url := upstatUrl,
                       params := [("mid", Json.num uid)], credential := some c }],
         .ok (req { method := "GET", url := upstatUrl,
                    params := [("mid", Json.num uid)], credential := some c }))) := by
  constructor
  · intro h
    simp [User.get_up_stat, Credential.raise_for_no_bili_jct, User.make, h]
  · intro h
    simp [User.get_up_stat, Credential.raise_for_no_bili_jct, User.make, h]

/-- C6 witness: concrete instantiations — an anonymous credential is
rejected before any call, and a credential holding only the write token
(no session claim) issues the upload-statistics request. -/
theorem claim_C6_witness :
    User.get_up_stat nullResponder (User.make 7 (some {})) =
      ([], .error (.missingCredential "bili_jct")) ∧
    User.get_up_stat nullResponder (User.make 7 (some { bili_jct := some "t" })) =
      ([Event.call { method := "GET", url := upstatUrl,
                     params := [("mid", Json.num 7)],
                     credential := some { bili_jct := some "t" } }],
       .ok (nullResponder { method := "GET", url := upstatUrl,
                            params := [("mid", Json.num 7)],
                            credential := some { bili_jct := some "t" } })) :=
  ⟨(claim_C6 nullResponder 7 {}).1 rfl,
   (claim_C6 nullResponder 7 { bili_jct := some "t" }).2 rfl⟩

/-- C8: parameter serialization is per-endpoint: `get_videos` serializes its
enumeration argument by underlying value (e.g. `FAVORATE` goes out as
`"stow"`, not its symbolic name), `get_dynamics` serializes `need_top` as
the integer `1`/`0`, and the follower/following listings serialize their
ordering boolean as the literal string `"desc"`/`"asc"`. -/
theorem claim_C8 (req : Requester) (u : User) (offset tid pn ps : Int)
    (kw : String) (b : Bool) (ord : VideoOrder) (dec : String → Json) :
    (User.get_dynamics dec req u offset b).1 =
      [Event.call { method := "GET", url := dynamicUrl,
                    params := [("host_uid", Json.num u.uid),
                               ("offset_dynamic_id", Json.num offset),
                               ("need_top", Json.num (if b then 1 else 0))],
                    credential := some u.credential }] ∧
    (User.get_followings req u pn b).1 =
      [Event.call { method := "GET", url := followingsUrl,
                    params := [("vmid", Json.num u.uid), ("ps", Json.num 20),
                               ("pn", Json.num pn),
                               ("order", Json.str (if b then "desc" else "asc"))],
                    credential := some u.credential }] ∧
    (User.get_followers req u pn b).1 =
      [Event.call { method := "GET", url := followersUrl,
                    params := [("vmid", Json.num u.uid), ("ps", Json.num 20),
                               ("pn", Json.num pn),
                               ("order", Json.str (if b then "desc" else "asc"))],
                    credential := some u.credential }] ∧
    (User.get_videos req u tid pn ps kw ord).1 =
      [Event.call { method := "GET", url := videoUrl,
                    params := [("mid", Json.num u.uid), ("ps", Json.num ps),
                               ("tid", Json.num tid), ("pn", Json.num pn),
                               ("keyword", Json.str kw),
                               ("order", Json.str ord.value)],
                    credential := some u.credential }] ∧
    VideoOrder.FAVORATE.value = "stow" ∧ RelationType.BLOCK.value = 5 := by
  exact ⟨rfl, rfl, rfl, rfl, rfl, rfl⟩

/-- C9: a resolved collection dispatches on its kind discriminator: a SEASON
collection queries the season endpoint with the sort order serialized by
value; a LEGACY_SERIES collection queries the series endpoint, and the
accepted sort-order argument has no effect on the issued request. -/
theorem claim_C9 (req : Requester) (cs : ChannelSeries)
    (sort sort' : ChannelOrder) (pn ps : Int) :
    (cs.is_new = 1 →
      ChannelSeries.get_videos req cs sort pn ps =
        ([Event.call { method := "GET", url := channelVideoSeasonUrl,
                       params := [("mid", Json.num cs.owner.uid),
                                  ("season_id", Json.num cs.id_),
                                  ("sort_reverse", Json.str sort.value),
                                  ("page_num", Json.num pn),
                                  ("page_size", Json.num ps)],
                       credential := some cs.owner.credential }],
         .ok (req { method := "GET", url := channelVideoSeasonUrl,
                    params := [("mid", Json.num cs.owner.uid),
                               ("season_id", Json.num cs.id_),
                               ("sort_reverse", Json.str sort.value),
                               ("page_num", Json.num pn),
                               ("page_size", Json.num ps)],
                    credential := some cs.owner.credential }))) ∧
    (cs.is_new = 0 →
      ChannelSeries.get_videos req cs sort pn ps =
        ChannelSeries.get_videos req cs sort' pn ps ∧
      ChannelSeries.get_videos req cs sort pn ps =
        ([Event.call { method := "GET", url := channelVideoSeriesUrl,
                       params := [("mid", Json.num cs.owner.uid),
                                  ("series_id", Json.num cs.id_),
                                  ("pn", Json.num pn), ("ps", Json.num ps)],
                       credential := some cs.owner.credential }],
         .ok (req { method := "GET", url := channelVideoSeriesUrl,
                    params := [("mid", Json.num cs.owner.uid),
                               ("series_id", Json.num cs.id_),
                               ("pn", Json.num pn), ("ps", Json.num ps)],
                    credential := some cs.owner.credential }))) := by
  constructor
  · intro h
    simp [ChannelSeries.get_videos, h, User.get_channel_videos_season]
  · intro h
    constructor
    · simp [ChannelSeries.get_videos, h]
    · simp [ChannelSeries.get_videos, h, User.get_channel_videos_series]

/-- C9 witness: a concrete SEASON collection issues the season request with
the sort order, and a concrete LEGACY_SERIES collection issues the same
series request under both sort orders. -/
theorem claim_C9_witness :
    ChannelSeries.get_videos nullResponder
      { uid := 1, is_new := 1, id_ := 2, owner := User.make 1 none,
        credential := none, meta := some (Json.obj []) }
      ChannelOrder.CHANGE 1 100 =
      ([Event.call { method := "GET", url := channelVideoSeasonUrl,
                     params := [("mid", Json.num 1), ("season_id", Json.num 2),
                                ("sort_reverse", Json.str "true"),
                                ("page_num", Json.num 1),
                                ("page_size", Json.num 100)],
                     credential := some {} }],
       .ok Json.null) ∧
    ChannelSeries.get_videos nullResponder
      { uid := 1, is_new := 0, id_ := 2, owner := User.make 1 none,
        credential := none, meta := some (Json.obj []) }
      ChannelOrder.CHANGE 1 100 =
      ChannelSeries.get_videos nullResponder
        { uid := 1, is_new := 0, id_ := 2, owner := User.make 1 none,
          credential := none, meta := some (Json.obj []) }
        ChannelOrder.DEFAULT 1 100 := by
  constructor
  · exact (claim_C9 nullResponder _ ChannelOrder.CHANGE ChannelOrder.DEFAULT 1 100).1 rfl
  · exact ((claim_C9 nullResponder _ ChannelOrder.CHANGE ChannelOrder.DEFAULT 1 100).2 rfl).1

/-- The second request of `User.get_channel_list` once the probe reported a
total of `N` items: the probe's param dict with `page_size` overwritten in
place by `N`, or by `1` when `N = 0`. -/
def secondChannelReq (u : User) (N : Int) : HttpReq :=
  { method := "GET", url := channelListUrl,
    params := setPairs "page_size" (if N = 0 then Json.num 1 else Json.num N)
                (channelListProbe u).params,
    credential := some u.credential }

/-- C2: when the probe response's envelope reports a total of `N` items,
`get_channel_list` performs exactly two Requester calls — the probe with
page size 1 and, after the fixed 500 ms pause, a second call whose page
size is `N`, or `1` when `N = 0`. -/
theorem claim_C2 (req : Requester) (u : User) (N : Int)
    (h : probeTotal (req (channelListProbe u)) = .ok (.num N)) :
    User.get_channel_list req u =
      ([.call (channelListProbe u), .sleep 500, .call (secondChannelReq u N)],
       .ok (req (secondChannelReq u N))) ∧
    countCalls (User.get_channel_list req u).1 = 2 ∧
    (channelListProbe u).params.lookup "page_size" = some (Json.num 1) ∧
    (secondChannelReq u N).params.lookup "page_size" =
      some (Json.num (if N = 0 then 1 else N)) := by
  have hmain : User.get_channel_list req u =
      ([.call (channelListProbe u), .sleep 500, .call (secondChannelReq u N)],
       .ok (req (secondChannelReq u N))) := by
    simp only [User.get_channel_list, h, secondChannelReq]
    by_cases h0 : N = 0 <;>
      simp [Json.pyEqZero, h0]
  refine ⟨hmain, ?_, ?_, ?_⟩
  · rw [hmain]
    rfl
  · rfl
  · by_cases h0 : N = 0 <;> simp [secondChannelReq, h0, lookup_setPairs_eq]

/-- A mocked Requester whose channel-list envelope reports 3 items in
total. -/
def mockTotal3 : Requester :=
  fun _ => Json.obj [("items_lists", Json.obj [("page", Json.obj [("total", Json.num 3)])])]

/-- A mocked Requester whose channel-list envelope reports 0 items in
total. -/
def mockTotal0 : Requester :=
  fun _ => Json.obj [("items_lists", Json.obj [("page", Json.obj [("total", Json.num 0)])])]

/-- C2 witness: with a mocked envelope totalling 3 items the second call
requests page size 3, and with a total of 0 it requests page size 1. -/
theorem claim_C2_witness :
    (secondChannelReq (User.make 5 none) 3).params.lookup "page_size" =
      some (Json.num 3) ∧
    countCalls (User.get_channel_list mockTotal3 (User.make 5 none)).1 = 2 ∧
    (secondChannelReq (User.make 5 none) 0).params.lookup "page_size" =
      some (Json.num 1) ∧
    countCalls (User.get_channel_list mockTotal0 (User.make 5 none)).1 = 2 := by
  refine ⟨?_, (claim_C2 mockTotal3 (User.make 5 none) 3 rfl).2.1, ?_,
          (claim_C2 mockTotal0 (User.make 5 none) 0 rfl).2.1⟩
  · have h := (claim_C2 mockTotal3 (User.make 5 none) 3 rfl).2.2.2
    simpa using h
  · have h := (claim_C2 mockTotal0 (User.make 5 none) 0 rfl).2.2.2
    simpa using h

/-- C1: every state-mutating operation (relation change, private-message
send, subscribe-group create/delete/rename, batch subscribe-group
assignment) checks the session claim first and the write-token claim
second: with either claim missing it fails with `MissingCredentialError`
naming the first missing claim and produces no Requester call. -/
theorem claim_C1 (req : Requester) (c : Credential) (uid gid : Int)
    (rel : RelationType) (text name new_name : String) (now : Int)
    (uids gids : List Int) :
    (c.sessdata = none →
      User.modify_relation req (User.make uid (some c)) rel =
        ([], .error (.missingCredential "sessdata")) ∧
      User.send_msg req (User.make uid (some c)) text now =
        ([], User.make uid (some c), .error (.missingCredential "sessdata")) ∧
      create_subscribe_group req name c =
        ([], .error (.missingCredential "sessdata")) ∧
      delete_subscribe_group req gid c =
        ([], .error (.missingCredential "sessdata")) ∧
      rename_subscribe_group req gid new_name c =
        ([], .error (.missingCredential "sessdata")) ∧
      set_subscribe_group req uids gids c =
        ([], .error (.missingCredential "sessdata"))) ∧
    (c.sessdata.isSome = true → c.bili_jct = none →
      User.modify_relation req (User.make uid (some c)) rel =
        ([], .error (.missingCredential "bili_jct")) ∧
      User.send_msg req (User.make uid (some c)) text now =
        ([], User.make uid (some c), .error (.missingCredential "bili_jct")) ∧
      create_subscribe_group req name c =
        ([], .error (.missingCredential "bili_jct")) ∧
      delete_subscribe_group req gid c =
        ([], .error (.missingCredential "bili_jct")) ∧
      rename_subscribe_group req gid new_name c =
        ([], .error (.missingCredential "bili_jct")) ∧
      set_subscribe_group req uids gids c =
        ([], .error (.missingCredential "bili_jct"))) := by
  constructor
  · intro h
    have hs : c.sessdata.isSome = false := by simp [h]
    refine ⟨?_, ?_, ?_, ?_, ?_, ?_⟩ <;>
      simp [User.modify_relation, User.send_msg, create_subscribe_group,
            delete_subscribe_group, rename_subscribe_group, set_subscribe_group,
            Credential.raise_for_no_sessdata, User.make, hs]
  · intro hs hj
    have hjf : c.bili_jct.isSome = false := by simp [hj]
    refine ⟨?_, ?_, ?_, ?_, ?_, ?_⟩ <;>
      simp [User.modify_relation, User.send_msg, create_subscribe_group,
            delete_subscribe_group, rename_subscribe_group, set_subscribe_group,
            Credential.raise_for_no_sessdata, Credential.raise_for_no_bili_jct,
            User.make, hs, hjf]

/-- C1 witness: with the anonymous credential a relation change is rejected
naming `sessdata`; with only the session claim present the subscribe-group
creation is rejected naming `bili_jct` — in both cases with an empty
trace. -/
theorem claim_C1_witness :
    User.modify_relation nullResponder (User.make 3 (some {})) RelationType.BLOCK =
      ([], .error (.missingCredential "sessdata")) ∧
    create_subscribe_group nullResponder "g" { sessdata := some "s" } =
      ([], .error (.missingCredential "bili_jct")) :=
  ⟨((claim_C1 nullResponder {} 3 0 RelationType.BLOCK "" "g" "" 0 [] []).1 rfl).1,
   ((claim_C1 nullResponder { sessdata := some "s" } 3 0 RelationType.BLOCK
      "" "g" "" 0 [] []).2 rfl rfl).2.2.1⟩

/-- C7: two sequential `send_msg` invocations on the same `User` instance
(both credential claims present, fresh instance) invoke the Requester for
the self-identity lookup exactly once across both traces: the first call
populates the cache, the second reuses it. -/
theorem claim_C7 (req : Requester) (uid : Int) (c : Credential)
    (t1 t2 : String) (n1 n2 : Int)
    (hs : c.sessdata.isSome = true) (hj : c.bili_jct.isSome = true) :
    countUrlCalls myInfoUrl
      (((User.make uid (some c)).send_msg req t1 n1).1 ++
       ((((User.make uid (some c)).send_msg req t1 n1).2.1).send_msg req t2 n2).1) = 1 := by
  cases hmid : (req { method := "GET", url := myInfoUrl,
                      credential := some c }).getItem "mid" with
  | error e =>
      simp only [User.send_msg, User.getSelfInfo, get_self_info, User.make,
                 Credential.raise_for_no_sessdata, Credential.raise_for_no_bili_jct,
                 hs, hj, hmid, Option.getD, if_true]
      rfl
  | ok mid =>
      simp only [User.send_msg, User.getSelfInfo, get_self_info, User.make,
                 Credential.raise_for_no_sessdata, Credential.raise_for_no_bili_jct,
                 hs, hj, hmid, Option.getD, if_true]
      rfl

/-- A mocked Requester answering every request with an identity record. -/
def mockIdentity : Requester := fun _ => Json.obj [("mid", Json.num 42)]

/-- C7 witness: two concrete sequential message sends on one fresh instance
with a full credential perform exactly one identity-lookup call. -/
theorem claim_C7_witness :
    countUrlCalls myInfoUrl
      (((User.make 9 (some { sessdata := some "s", bili_jct := some "j" })).send_msg
          mockIdentity "hello" 1).1 ++
       ((((User.make 9 (some { sessdata := some "s", bili_jct := some "j" })).send_msg
           mockIdentity "hello" 1).2.1).send_msg mockIdentity "again" 2).1) = 1 :=
  claim_C7 mockIdentity 9 { sessdata := some "s", bili_jct := some "j" }
    "hello" "again" 1 2 rfl rfl

/-- C3 counterexample: a dynamics payload whose single card item lacks the
`card` field does not pass through unmodified — the unwrap fails with
`KeyError("card")`, refuting the claim's pass-through clause. -/
theorem claim_C3_counterexample :
    unwrapCards (fun _ => Json.null) (Json.obj [("cards", Json.arr [Json.obj []])]) =
      .error (.keyError "card") ∧
    unwrapCards (fun _ => Json.null) (Json.obj [("cards", Json.arr [Json.obj []])]) ≠
      .ok (Json.obj [("cards", Json.arr [Json.obj []])]) := by
  constructor
  · rfl
  · have h : unwrapCards (fun _ => Json.null)
        (Json.obj [("cards", Json.arr [Json.obj []])]) =
        .error (.keyError "card") := rfl
    rw [h]
    exact fun hc => Except.noConfusion hc

/-- C3 (amended): the embedded-JSON unwrap (1) is a no-op when the payload
lacks the `cards` list; (2) replaces each item's stringified `card` and
`extend_json` fields in place by their decoded structures — exactly the
decoder applied to the original strings; (3) rebuilds the payload with the
transformed items; and (4) fails with `KeyError("card")` on an item lacking
the `card` field, instead of passing it through unmodified. -/
theorem claim_C3 :
    (∀ (dec : String → Json) (kvs : List (String × Json)),
      kvs.lookup "cards" = none →
      unwrapCards dec (Json.obj kvs) = .ok (Json.obj kvs)) ∧
    (∀ (dec : String → Json) (ckvs : List (String × Json)) (s t : String),
      ckvs.lookup "card" = some (Json.str s) →
      ckvs.lookup "extend_json" = some (Json.str t) →
      transformCard dec (Json.obj ckvs) =
        .ok (Json.obj (setPairs "extend_json" (dec t) (setPairs "card" (dec s) ckvs))) ∧
      (setPairs "extend_json" (dec t) (setPairs "card" (dec s) ckvs)).lookup "card" =
        some (dec s) ∧
      (setPairs "extend_json" (dec t) (setPairs "card" (dec s) ckvs)).lookup "extend_json" =
        some (dec t)) ∧
    (∀ (dec : String → Json) (kvs : List (String × Json)) (cards cards1 : List Json),
      kvs.lookup "cards" = some (Json.arr cards) →
      cards.mapM (transformCard dec) = .ok cards1 →
      unwrapCards dec (Json.obj kvs) = .ok (Json.obj (setPairs "cards" (Json.arr cards1) kvs))) ∧
    (∀ (dec : String → Json) (ckvs : List (String × Json)),
      ckvs.lookup "card" = none →
      transformCard dec (Json.obj ckvs) = .error (.keyError "card")) := by
  refine ⟨?_, ?_, ?_, ?_⟩
  · intro dec kvs h
    simp [unwrapCards, Json.hasMember, h]
  · intro dec ckvs s t hc he
    have he1 : (setPairs "card" (dec s) ckvs).lookup "extend_json" =
        some (Json.str t) := by
      rw [lookup_setPairs_ne _ _ _ _ (by decide)]
      exact he
    refine ⟨?_, ?_, ?_⟩
    · simp [transformCard, hc, he1]
    · rw [lookup_setPairs_ne _ _ _ _ (by decide)]
      exact lookup_setPairs_eq _ _ _
    · exact lookup_setPairs_eq _ _ _
  · intro dec kvs cards cards1 hc hm
    have hm1 : List.mapM.loop (transformCard dec) cards [] = Except.ok cards1 := hm
    simp [unwrapCards, Json.hasMember, Json.getItem, hc, hm1]
  · intro dec ckvs h
    simp [transformCard, h]

/-- C3 witness: concrete instantiations — a payload without the list field
passes through, and a card item carrying stringified fields comes out with
both fields decoded by the decoder. -/
theorem claim_C3_witness :
    unwrapCards (fun _ => Json.num 7) (Json.obj [("ok", Json.num 1)]) =
      .ok (Json.obj [("ok", Json.num 1)]) ∧
    transformCard (fun _ => Json.num 7)
      (Json.obj [("card", Json.str "a"), ("extend_json", Json.str "b")]) =
      .ok (Json.obj (setPairs "extend_json" (Json.num 7)
        (setPairs "card" (Json.num 7)
          [("card", Json.str "a"), ("extend_json", Json.str "b")]))) :=
  ⟨claim_C3.1 (fun _ => Json.num 7) [("ok", Json.num 1)] rfl,
   (claim_C3.2.1 (fun _ => Json.num 7)
      [("card", Json.str "a"), ("extend_json", Json.str "b")] "a" "b" rfl rfl).1⟩

/-- Successful Python subscripting happens only on an object that contains
the key. -/
theorem getItem_ok_shape (j : Json) (k : String) (v : Json)
    (h : j.getItem k = .ok v) :
    ∃ kvs, j = Json.obj kvs ∧ kvs.lookup k = some v := by
  cases j <;> simp only [Json.getItem] at h
  case obj kvs =>
    cases hlk : kvs.lookup k with
    | none => rw [hlk] at h; exact absurd h (by simp)
    | some v0 =>
        rw [hlk] at h
        refine ⟨kvs, rfl, ?_⟩
        rw [hlk]
        exact congrArg some (Except.ok.injEq v0 v ▸ (by injection h))
  all_goals exact absurd h (by simp)

/-- Every metadata record the scan loop of `ChannelSeries.__init__` can
return was subscripted successfully at the id key, hence is a non-empty
object. -/
theorem scanMeta_ok_some (is_new id_ : Int) :
    ∀ (channels : List Json) (acc : Option Json) (m : Json),
      scanMeta is_new id_ acc channels = .ok (some m) →
      (∀ m0, acc = some m0 → ∃ kvs, m0 = Json.obj kvs ∧ kvs ≠ []) →
      ∃ kvs, m = Json.obj kvs ∧ kvs ≠ [] := by
  intro channels
  induction channels with
  | nil =>
      intro acc m h hacc
      simp only [scanMeta] at h
      exact hacc m (by injection h)
  | cons ch rest ih =>
      intro acc m h hacc
      cases hmeta : ch.getItem "meta" with
      | error e => simp [scanMeta, hmeta] at h
      | ok m' =>
          cases htid : m'.getItem (if is_new ≠ 0 then "season_id" else "series_id") with
          | error e =>
              simp only [scanMeta, hmeta, htid] at h
              exact absurd h (by simp)
          | ok tid =>
              cases hq : tid.pyEqInt id_ with
              | true =>
                  simp only [scanMeta, hmeta, htid, hq, if_true] at h
                  refine ih (some m') m (by simpa using h) ?_
                  intro m0 hm0
                  have hm0' : m' = m0 := by injection hm0
                  subst hm0'
                  obtain ⟨kvs, hobj, hlk⟩ := getItem_ok_shape _ _ _ htid
                  refine ⟨kvs, hobj, ?_⟩
                  intro hnil
                  rw [hnil] at hlk
                  simp [List.lookup] at hlk
              | false =>
                  simp only [scanMeta, hmeta, htid, hq, Bool.false_eq_true,
                             if_false] at h
                  exact ih acc m (by simpa using h) hacc

/-- The two catalog entries of the mocked channel catalog below: seasons
with ids 2 (with a title) and 3. -/
def mockSeasonsEntries : List Json :=
  [Json.obj [("meta", Json.obj [("season_id", Json.num 2), ("title", Json.str "t")])],
   Json.obj [("meta", Json.obj [("season_id", Json.num 3)])]]

/-- The full channel-list payload of the mocked catalog: an envelope
totalling 2 items, the two season entries and no legacy series. -/
def mockChannelPayload : Json :=
  Json.obj [("items_lists",
    Json.obj [("page", Json.obj [("total", Json.num 2)]),
              ("seasons_list", Json.arr mockSeasonsEntries),
              ("series_list", Json.arr [])])]

/-- A mocked Requester answering every request with the channel-list
payload above. -/
def mockChannelCatalog : Requester := fun _ => mockChannelPayload

/-- C4 counterexample: with a mocked catalog containing a matching entry,
construction without metadata resolves but performs exactly two Requester
calls (the two-step full-collection-list fetch), not one. -/
theorem claim_C4_counterexample :
    countCalls (ChannelSeries.init mockChannelCatalog 1 ChannelSeriesType.SEASON 2
      none none).1 = 2 ∧
    countCalls (ChannelSeries.init mockChannelCatalog 1 ChannelSeriesType.SEASON 2
      none none).1 ≠ 1 ∧
    (ChannelSeries.init mockChannelCatalog 1 ChannelSeriesType.SEASON 2 none none).2 =
      .ok { uid := 1, is_new := 1, id_ := 2, owner := User.make 1 none,
            credential := none,
            meta := some (Json.obj [("season_id", Json.num 2), ("title", Json.str "t")]) } := by
  refine ⟨rfl, ?_, rfl⟩
  intro h
  rw [show countCalls (ChannelSeries.init mockChannelCatalog 1 ChannelSeriesType.SEASON 2
      none none).1 = 2 from rfl] at h
  exact absurd h (by decide)

/-- C4 (amended): constructing with explicit metadata performs zero
Requester calls and resolves immediately; constructing without metadata runs
the owner's two-step collection-list fetch — exactly two Requester calls
whenever that fetch returns — and then either resolves on a matching entry
or fails with the collection-not-found error (`ValueError`, the spec's
`CollectionNotFoundError`) when no entry matches. -/
theorem claim_C4 :
    (∀ (req : Requester) (uid : Int) (ty : ChannelSeriesType) (id_ : Int)
       (cred : Option Credential) (m : Json),
      ChannelSeries.init req uid ty id_ cred (some m) =
        ([], .ok { uid := uid, is_new := ty.value, id_ := id_,
                   owner := User.make uid cred, credential := cred,
                   meta := some m }) ∧
      countCalls (ChannelSeries.init req uid ty id_ cred (some m)).1 = 0) ∧
    (∀ (req : Requester) (u : User) (evs : List Event) (cl : Json),
      User.get_channel_list req u = (evs, .ok cl) → countCalls evs = 2) ∧
    (∀ (req : Requester) (uid : Int) (ty : ChannelSeriesType) (id_ : Int)
       (cred : Option Credential) (evs : List Event) (cl il : Json)
       (channels : List Json),
      (User.make uid cred).get_channel_list req = (evs, .ok cl) →
      cl.getItem "items_lists" = .ok il →
      il.getItem ((if ty.value ≠ 0 then "seasons" else "series") ++ "_list") =
        .ok (.arr channels) →
      (∀ m, scanMeta ty.value id_ none channels = .ok (some m) →
        ChannelSeries.init req uid ty id_ cred none =
          (evs, .ok { uid := uid, is_new := ty.value, id_ := id_,
                      owner := User.make uid cred, credential := cred,
                      meta := some m })) ∧
      (scanMeta ty.value id_ none channels = .ok none →
        ChannelSeries.init req uid ty id_ cred none =
          (evs, .error (.valueError "未找到频道信息。")))) := by
  refine ⟨?_, ?_, ?_⟩
  · intro req uid ty id_ cred m
    exact ⟨rfl, rfl⟩
  · intro req u evs cl h
    cases hp : probeTotal (req (channelListProbe u)) with
    | error e =>
        simp only [User.get_channel_list, hp] at h
        rw [Prod.mk.injEq] at h
        exact absurd h.2 (by simp)
    | ok items =>
        simp only [User.get_channel_list, hp] at h
        rw [Prod.mk.injEq] at h
        rw [← h.1]
        rfl
  · intro req uid ty id_ cred evs cl il channels h1 h2 h3
    constructor
    · intro m hm
      simp only [ChannelSeries.init, h1, h2, h3, hm]
    · intro hm
      simp only [ChannelSeries.init, h1, h2, h3, hm]

/-- C4 witness: concrete instantiations against the mocked catalog — an
explicit-metadata construction has an empty trace, a fetch-path construction
with a matching id resolves after exactly two calls, and one with an
unmatched id fails with the collection-not-found error. -/
theorem claim_C4_witness :
    ChannelSeries.init nullResponder 1 ChannelSeriesType.SEASON 2 none
      (some (Json.obj [("season_id", Json.num 2)])) =
      ([], .ok { uid := 1, is_new := 1, id_ := 2, owner := User.make 1 none,
                 credential := none,
                 meta := some (Json.obj [("season_id", Json.num 2)]) }) ∧
    countCalls (ChannelSeries.init mockChannelCatalog 1 ChannelSeriesType.SEASON 4
      none none).1 = 2 ∧
    (ChannelSeries.init mockChannelCatalog 1 ChannelSeriesType.SEASON 4 none none).2 =
      .error (.valueError "未找到频道信息。") := by
  refine ⟨(claim_C4.1 nullResponder 1 ChannelSeriesType.SEASON 2 none
    (Json.obj [("season_id", Json.num 2)])).1, ?_, ?_⟩
  · exact claim_C4.2.1 mockChannelCatalog (User.make 1 none)
      (ChannelSeries.init mockChannelCatalog 1 ChannelSeriesType.SEASON 4 none none).1
      mockChannelPayload rfl
  · have h := (claim_C4.2.2 mockChannelCatalog 1 ChannelSeriesType.SEASON 4 none
      (ChannelSeries.init mockChannelCatalog 1 ChannelSeriesType.SEASON 4 none none).1
      mockChannelPayload
      (Json.obj [("page", Json.obj [("total", Json.num 2)]),
                 ("seasons_list", Json.arr mockSeasonsEntries),
                 ("series_list", Json.arr [])])
      mockSeasonsEntries rfl rfl rfl).2 rfl
    exact congrArg Prod.snd h

/-- The spec's invariant on a constructed collection: the stored metadata is
a non-empty mapping. -/
def metaNonEmpty (cs : ChannelSeries) : Prop :=
  ∃ kvs, cs.meta = some (Json.obj kvs) ∧ kvs ≠ []

/-- C5 counterexample: constructing with an explicitly supplied *empty*
metadata mapping succeeds (Python only compares the argument against
`None`), yet the resulting metadata mapping is empty, refuting the
non-emptiness invariant for explicitly supplied metadata. -/
theorem claim_C5_counterexample :
    ChannelSeries.init nullResponder 1 ChannelSeriesType.SEASON 2 none
      (some (Json.obj [])) =
      ([], .ok { uid := 1, is_new := 1, id_ := 2, owner := User.make 1 none,
                 credential := none, meta := some (Json.obj []) }) ∧
    ¬ metaNonEmpty { uid := 1, is_new := 1, id_ := 2, owner := User.make 1 none,
                     credential := none, meta := some (Json.obj []) } := by
  constructor
  · rfl
  · rintro ⟨kvs, hm, hne⟩
    have h1 : Json.obj [] = Json.obj kvs := by injection hm
    have h2 : ([] : List (String × Json)) = kvs := by injection h1
    exact hne h2.symm

/-- C5 (amended): when construction fetches the metadata itself (no
explicit `meta` argument), every successfully constructed collection holds a
non-empty metadata mapping — the matched entry was subscripted at its id
key, so it has at least that key; an explicitly supplied metadata mapping is
stored as-is, so the invariant holds only for the fetch path. -/
theorem claim_C5 :
    (∀ (req : Requester) (uid : Int) (ty : ChannelSeriesType) (id_ : Int)
       (cred : Option Credential) (evs : List Event) (cs : ChannelSeries),
      ChannelSeries.init req uid ty id_ cred none = (evs, .ok cs) →
      metaNonEmpty cs) ∧
    (∀ (req : Requester) (uid : Int) (ty : ChannelSeriesType) (id_ : Int)
       (cred : Option Credential) (m : Json),
      ChannelSeries.init req uid ty id_ cred (some m) =
        ([], .ok { uid := uid, is_new := ty.value, id_ := id_,
                   owner := User.make uid cred, credential := cred,
                   meta := some m })) := by
  constructor
  · intro req uid ty id_ cred evs cs h
    cases hgc : (User.make uid cred).get_channel_list req with
    | mk evs0 r0 =>
        cases r0 with
        | error e =>
            simp only [ChannelSeries.init, hgc] at h
            rw [Prod.mk.injEq] at h
            exact absurd h.2 (by simp)
        | ok cl =>
            cases hil : cl.getItem "items_lists" with
            | error e =>
                simp only [ChannelSeries.init, hgc, hil] at h
                rw [Prod.mk.injEq] at h
                exact absurd h.2 (by simp)
            | ok il =>
                cases hll : il.getItem
                    ((if ty.value ≠ 0 then "seasons" else "series") ++ "_list") with
                | error e =>
                    simp only [ChannelSeries.init, hgc, hil, hll] at h
                    rw [Prod.mk.injEq] at h
                    exact absurd h.2 (by simp)
                | ok j =>
                    cases j with
                    | arr channels =>
                        cases hsm : scanMeta ty.value id_ none channels with
                        | error e =>
                            simp only [ChannelSeries.init, hgc, hil, hll, hsm] at h
                            rw [Prod.mk.injEq] at h
                            exact absurd h.2 (by simp)
                        | ok o =>
                            cases o with
                            | none =>
                                simp only [ChannelSeries.init, hgc, hil, hll, hsm] at h
                                rw [Prod.mk.injEq] at h
                                exact absurd h.2 (by simp)
                            | some m =>
                                simp only [ChannelSeries.init, hgc, hil, hll, hsm] at h
                                rw [Prod.mk.injEq] at h
                                have h3 := h.2
                                injection h3 with hcs
                                obtain ⟨kvs, hobj, hne⟩ :=
                                  scanMeta_ok_some ty.value id_ channels none m hsm
                                    (fun m0 h0 => by simp at h0)
                                refine ⟨kvs, ?_, hne⟩
                                rw [← hcs]
                                exact congrArg some hobj
                    | null =>
                        simp only [ChannelSeries.init, hgc, hil, hll] at h
                        rw [Prod.mk.injEq] at h
                        exact absurd h.2 (by simp)
                    | bool b =>
                        simp only [ChannelSeries.init, hgc, hil, hll] at h
                        rw [Prod.mk.injEq] at h
                        exact absurd h.2 (by simp)
                    | num n =>
                        simp only [ChannelSeries.init, hgc, hil, hll] at h
                        rw [Prod.mk.injEq] at h
                        exact absurd h.2 (by simp)
                    | str s2 =>
                        simp only [ChannelSeries.init, hgc, hil, hll] at h
                        rw [Prod.mk.injEq] at h
                        exact absurd h.2 (by simp)
                    | obj kvs2 =>
                        simp only [ChannelSeries.init, hgc, hil, hll] at h
                        rw [Prod.mk.injEq] at h
                        exact absurd h.2 (by simp)
  · intro req uid ty id_ cred m
    rfl

/-- C5 witness: a concrete fetch-path construction against the mocked
catalog yields a collection whose metadata mapping is non-empty. -/
theorem claim_C5_witness :
    metaNonEmpty { uid := 1, is_new := 1, id_ := 2, owner := User.make 1 none,
                   credential := none,
                   meta := some (Json.obj [("season_id", Json.num 2),
                                           ("title", Json.str "t")]) } :=
  claim_C5.1 mockChannelCatalog 1 ChannelSeriesType.SEASON 2 none
    (ChannelSeries.init mockChannelCatalog 1 ChannelSeriesType.SEASON 2 none none).1
    { uid := 1, is_new := 1, id_ := 2, owner := User.make 1 none,
      credential := none,
      meta := some (Json.obj [("season_id", Json.num 2), ("title", Json.str "t")]) }
    rfl
